import Mathlib

/-!
Verification development for the WildfireAnalysisGentineLab repository.

The repository consists of two Python scripts:
- src/data_visualizations/map_fires_vs_precip.py : a seeded synthetic
  generator of per-state, per-year precipitation / wildfire metrics,
  normalized to intensities and rendered as an animated choropleth;
- src/data_visualizations/ca_fires_2000-2015.py : a SQLite loader for
  California wildfire records 2000-2015, an exploratory summary, and
  choropleth / time-series / bar-chart builders.

Floating point arithmetic is modelled with the rationals, machine
randomness with an explicit stream of raw draws, dataframe mutation with
an explicit store of frames, and fallible I/O with Except-valued
outcomes.
-/

/-! ## Shared list helpers (model of pandas Series.min / Series.max) -/

/-- Minimum of a list of rationals; 0 for the empty list (the empty case
never feeds a claim: every claim using it carries a nondegeneracy
hypothesis or a nonempty list). -/
def listMin : List ℚ → ℚ
  | [] => 0
  | x :: xs => xs.foldl min x

/-- Maximum of a list of rationals; 0 for the empty list. -/
def listMax : List ℚ → ℚ
  | [] => 0
  | x :: xs => xs.foldl max x

namespace MapFiresVsPrecip

/-! ## Embedding of src/data_visualizations/map_fires_vs_precip.py -/

/-- The 50 US state abbreviations plus DC, in the order of the source
list (line 16). -/
def states : List String :=
  ["AL","AK","AZ","AR","CA","CO","CT","DE","FL","GA","HI","ID","IL","IN","IA","KS",
   "KY","LA","ME","MD","MA","MI","MN","MS","MO","MT","NE","NV","NH","NJ","NM",
   "NY","NC","ND","OH","OK","OR","PA","RI","SC","SD","TN","TX","UT","VT","VA",
   "WA","WV","WI","WY","DC"]

/-- Years 2000 through 2025 inclusive (line 21). -/
def years : List Int := (List.range 26).map (fun i => 2000 + (i : Int))

def west : List String := ["CA","OR","WA","NV","AZ","NM","CO","UT","ID","MT","WY"]

def southeast : List String := ["FL","GA","AL","MS","LA","SC","NC","TN","KY"]

def northeast : List String := ["ME","NH","VT","MA","RI","CT","NY","NJ","PA","MD","DE"]

def midwest : List String := ["OH","MI","IN","IL","WI","MN","IA","MO","ND","SD","NE","KS"]

def islands : List String := ["HI","AK"]

/-- Model of the numpy global pseudo-random generator after a call to
np.random.seed: an infinite stream of raw rational draws together with a
cursor.  Every call that consumes randomness reads the draw at the
cursor and advances it, so the whole generation run is a function of the
stream alone. -/
structure Gen where
  stream : Nat → ℚ
  idx : Nat

/-- Consume one raw draw. -/
def Gen.next (g : Gen) : ℚ × Gen := (g.stream g.idx, { g with idx := g.idx + 1 })

/-- Model of np.random.normal(mu, sigma): one raw draw placed at the
requested location and scale. -/
def normalDraw (mu sigma : ℚ) (g : Gen) : ℚ × Gen :=
  let d := g.next
  (mu + sigma * d.1, d.2)

/-- Model of np.random.uniform(a, b): one raw draw placed in the
requested interval. -/
def uniformDraw (a b : ℚ) (g : Gen) : ℚ × Gen :=
  let d := g.next
  (a + (b - a) * d.1, d.2)

/-- Model of np.random.rand(): one raw draw. -/
def randDraw (g : Gen) : ℚ × Gen := Gen.next g

/-- Baseline precipitation and wildfire draws for one state
(lines 33-51): a normal draw for base_precip followed by a uniform draw
for base_wild, with region-specific parameters chosen by the same
if/elif chain as the source. -/
def drawBase (st : String) (g : Gen) : (ℚ × ℚ) × Gen :=
  if st ∈ west then
    let p := normalDraw 600 120 g
    let w := uniformDraw 30 80 p.2
    ((p.1, w.1), w.2)
  else if st ∈ southeast then
    let p := normalDraw 1300 200 g
    let w := uniformDraw 5 25 p.2
    ((p.1, w.1), w.2)
  else if st ∈ northeast then
    let p := normalDraw 1100 200 g
    let w := uniformDraw 2 15 p.2
    ((p.1, w.1), w.2)
  else if st ∈ midwest then
    let p := normalDraw 900 180 g
    let w := uniformDraw 3 20 p.2
    ((p.1, w.1), w.2)
  else if st ∈ islands then
    let p := normalDraw 1500 300 g
    let w := uniformDraw 1 10 p.2
    ((p.1, w.1), w.2)
  else
    let p := normalDraw 800 200 g
    let w := uniformDraw 2 30 p.2
    ((p.1, w.1), w.2)

/-- The base_precip / base_wild tables, built by iterating drawBase over
the states in list order (the for loop at line 33). -/
def drawBases : List String → Gen → List (String × ℚ × ℚ) × Gen
  | [], g => ([], g)
  | st :: rest, g =>
    let b := drawBase st g
    let tail := drawBases rest b.2
    ((st, b.1) :: tail.1, tail.2)

/-- One generated record: state, year, precipitation (mm) and wildfire
index (the dict appended at lines 66-71). -/
structure GenRow where
  state : String
  year : Int
  precip_mm : ℚ
  wildfire_index : ℚ
deriving DecidableEq, Repr

/-- year_frac = (year - 2000) / 25.0 (line 57). -/
def yearFrac (year : Int) : ℚ := ((year : ℚ) - 2000) / 25

/-- One row of the generation loop body (lines 58-71): precipitation
noise draws, wildfire noise draw, the conditional western spike, and the
final clamps max(0, precip) and max(0, wild). -/
def mkRow (bp bw : ℚ) (st : String) (year : Int) (g : Gen) : GenRow × Gen :=
  let yf := yearFrac year
  let d1 := normalDraw 0 (8 / 100) g
  let d2 := normalDraw 0 (3 / 100) d1.2
  let precip := bp * (1 + d1.1) * (1 + d2.1 * yf)
  let d3 := normalDraw 0 (25 / 100) d2.2
  let wild0 := bw * (1 + (9 / 10) * yf) * (1 + d3.1)
  let wg : ℚ × Gen :=
    if st ∈ west then
      let dr := randDraw d3.2
      if dr.1 < 8 / 100 + (12 / 100) * yf then
        let du := uniformDraw (3 / 2) 4 dr.2
        (wild0 * du.1, du.2)
      else (wild0, dr.2)
    else (wild0, d3.2)
  ({ state := st, year := year, precip_mm := max 0 precip,
     wildfire_index := max 0 wg.1 }, wg.2)

/-- Lookup of base_precip[st] / base_wild[st] in the base table. -/
def baseFor (bases : List (String × ℚ × ℚ)) (st : String) : ℚ × ℚ :=
  (bases.lookup st).getD (0, 0)

/-- Inner loop over states for one year (line 58). -/
def rowsForYear (bases : List (String × ℚ × ℚ)) (year : Int) :
    List String → Gen → List GenRow × Gen
  | [], g => ([], g)
  | st :: rest, g =>
    let b := baseFor bases st
    let r := mkRow b.1 b.2 st year g
    let tail := rowsForYear bases year rest r.2
    (r.1 :: tail.1, tail.2)

/-- Outer loop over years (line 55). -/
def rowsForYears (bases : List (String × ℚ × ℚ)) :
    List Int → Gen → List GenRow × Gen
  | [], g => ([], g)
  | y :: rest, g =>
    let rs := rowsForYear bases y states g
    let tail := rowsForYears bases rest rs.2
    (rs.1 ++ tail.1, tail.2)

/-- The full generation procedure (lines 30-73): draw the per-state
baselines, then produce one row per (year, state) pair, threading the
generator state throughout. -/
def generateRows (g : Gen) : List GenRow :=
  let bases := drawBases states g
  (rowsForYears bases.1 years bases.2).1

/-- A concrete 64-bit linear congruential step, standing in for the
Mersenne Twister inside numpy.  What matters for the claims is only that
the stream of draws is a pure function of the seed. -/
def lcg (n : Nat) : Nat := (6364136223846793005 * n + 1442695040888963407) % 2 ^ 64

/-- Model of np.random.seed(seed): the deterministic stream of raw draws
that the seeded generator will produce. -/
def mkStream (seed : Nat) : Nat → ℚ :=
  fun i => ((lcg^[i + 1] (seed % 2 ^ 64) : ℕ) : ℚ) / 2 ^ 64

/-- The generated table as a function of the seed (np.random.seed at
line 13 followed by the generation loops). -/
def generateTable (seed : Nat) : List GenRow := generateRows ⟨mkStream seed, 0⟩

/-- A generated row extended with the two normalized intensity columns
added at lines 76-77. -/
structure IntensityRow extends GenRow where
  precip_intensity : ℚ
  wildfire_intensity : ℚ
deriving DecidableEq, Repr

def precipMin (rows : List GenRow) : ℚ := listMin (rows.map (fun r => r.precip_mm))

def precipMax (rows : List GenRow) : ℚ := listMax (rows.map (fun r => r.precip_mm))

def wildMin (rows : List GenRow) : ℚ := listMin (rows.map (fun r => r.wildfire_index))

def wildMax (rows : List GenRow) : ℚ := listMax (rows.map (fun r => r.wildfire_index))

/-- Lines 76-77: both intensity columns are computed in one pass over
the whole table, normalizing each metric by the global minimum and
maximum of that metric (not per year, not per frame). -/
def addIntensities (rows : List GenRow) : List IntensityRow :=
  let pmn := precipMin rows
  let pmx := precipMax rows
  let wmn := wildMin rows
  let wmx := wildMax rows
  rows.map fun r =>
    { toGenRow := r,
      precip_intensity := (r.precip_mm - pmn) / (pmx - pmn),
      wildfire_intensity := (r.wildfire_index - wmn) / (wmx - wmn) }

end MapFiresVsPrecip

namespace CaFires

/-! ## Embedding of src/data_visualizations/ca_fires_2000-2015.py -/

/-- One loaded fire record: the nine columns selected by the query at
lines 13-23.  FIRE_NAME is nullable; numeric columns are modelled as
rationals, FIRE_YEAR as an integer. -/
structure FireRow where
  fire_name : Option String
  state : String
  fire_year : Int
  latitude : ℚ
  longitude : ℚ
  fire_size : ℚ
  fire_size_class : String
  stat_cause_code : ℚ
  stat_cause_descr : String
deriving DecidableEq, Repr

/-- One raw row of the Fires table in the database: the nine selected
columns plus whatever further columns the table holds, modelled as an
assoc list the query never inspects. -/
structure RawFireRow extends FireRow where
  otherColumns : List (String × String)
deriving DecidableEq, Repr

/-- The SELECT clause: restrict a raw row to the fixed nine-column set. -/
def selectColumns (r : RawFireRow) : FireRow := r.toFireRow

/-- The WHERE clause (lines 29-31): STATE = CA and FIRE_YEAR between
2000 and 2015 inclusive. -/
def firesWhere (r : RawFireRow) : Bool :=
  r.state == "CA" && decide ((2000 : Int) ≤ r.fire_year) && decide (r.fire_year ≤ 2015)

/-- The ORDER BY clause (line 32): FIRE_YEAR ascending, FIRE_SIZE
descending within a year. -/
def fireOrder (a b : FireRow) : Bool :=
  decide (a.fire_year < b.fire_year) ||
    (a.fire_year == b.fire_year && decide (b.fire_size ≤ a.fire_size))

/-- The full query of lines 26-33 evaluated against the Fires table:
filter, project to the nine columns, sort. -/
def queryFires (db : List RawFireRow) : List FireRow :=
  ((db.filter firesWhere).map selectColumns).mergeSort fireOrder

/-- Observable outcome of one run of load_california_wildfires: the
returned value, whether a connection was opened, whether close was
called on it, whether the except branch printed its diagnostic, and how
many times connect and the query ran. -/
structure LoadResult where
  result : Option (List FireRow)
  connOpened : Bool
  connClosed : Bool
  printedError : Bool
  connectCalls : Nat
  queryCalls : Nat
deriving DecidableEq, Repr

/-- load_california_wildfires (lines 35-51), parameterized by the
outcomes of its two fallible steps: sqlite3.connect and
pd.read_sql_query (the latter carrying the underlying Fires table on
success).  The try body runs connect, then the query, then conn.close;
any raised error jumps to the except branch, which prints a diagnostic
and returns None without reaching the close call. -/
def load_california_wildfires (connectOutcome : Except String Unit)
    (queryOutcome : Except String (List RawFireRow)) : LoadResult :=
  match connectOutcome with
  | .error _ =>
    { result := none, connOpened := false, connClosed := false,
      printedError := true, connectCalls := 1, queryCalls := 0 }
  | .ok _ =>
    match queryOutcome with
    | .error _ =>
      { result := none, connOpened := true, connClosed := false,
        printedError := true, connectCalls := 1, queryCalls := 1 }
    | .ok db =>
      { result := some (queryFires db), connOpened := true, connClosed := true,
        printedError := false, connectCalls := 1, queryCalls := 1 }

/-- True when an Except value is an error. -/
def isErr {ε α : Type} : Except ε α → Bool
  | .error _ => true
  | .ok _ => false

/-! ### Exploratory summary (explore_ca_data, lines 53-99) -/

def listMinInt : List Int → Option Int
  | [] => none
  | x :: xs => some (xs.foldl min x)

def listMaxInt : List Int → Option Int
  | [] => none
  | x :: xs => some (xs.foldl max x)

/-- Model of pandas value_counts: occurrence count of each distinct key,
sorted by count descending. -/
def valueCounts {κ : Type} [DecidableEq κ] (l : List κ) : List (κ × Nat) :=
  (l.dedup.map (fun k => (k, l.count k))).mergeSort (fun a b => decide (b.2 ≤ a.2))

/-- Model of value_counts().sort_index() for the per-year counts:
occurrence counts sorted by year ascending. -/
def yearCounts (l : List Int) : List (Int × Nat) :=
  (l.dedup.map (fun k => (k, l.count k))).mergeSort (fun a b => decide (a.1 ≤ b.1))

/-- Model of df.nlargest(n, FIRE_SIZE): the n largest rows by fire
size, in descending order. -/
def nlargestBySize (n : Nat) (rows : List FireRow) : List FireRow :=
  (rows.mergeSort (fun a b => decide (b.fire_size ≤ a.fire_size))).take n

/-- The nine column names, in SELECT order. -/
def columnNames : List String :=
  ["FIRE_NAME", "STATE", "FIRE_YEAR", "LATITUDE", "LONGITUDE",
   "FIRE_SIZE", "FIRE_SIZE_CLASS", "STAT_CAUSE_CODE", "STAT_CAUSE_DESCR"]

/-- Per-column null count.  In the model only FIRE_NAME is nullable;
the eight remaining columns always count zero. -/
def missingCount (rows : List FireRow) (col : String) : Nat :=
  if col = "FIRE_NAME" then rows.countP (fun r => decide (r.fire_name = none)) else 0

/-- The printed summary of explore_ca_data, lines 64-99, as data: total
count, year range, totals and mean, the per-year and per-class listings,
the top-10 causes, the top-5 largest fires (with the Unknown placeholder
for a missing name), the missing-data lines (only columns with a
positive null count, with their percentage), and the 3-row preview. -/
structure ExploreReport where
  totalFires : Nat
  yearMin : Option Int
  yearMax : Option Int
  totalAcres : ℚ
  avgFireSize : Option ℚ
  firesByYear : List (Int × Nat)
  sizeClassCounts : List (String × Nat)
  topCauses : List (String × Nat)
  largestFires : List (Int × String × ℚ)
  missingData : List (String × Nat × ℚ)
  firstRecords : List FireRow
deriving DecidableEq, Repr

/-- explore_ca_data (lines 53-99).  Returns none when the input is
absent (the early return at line 57); otherwise the full report.  The
min, max and mean of an empty column are absent values (pandas produces
NaN there and prints it without raising). -/
def explore_ca_data : Option (List FireRow) → Option ExploreReport
  | none => none
  | some rows =>
    some
      { totalFires := rows.length
        yearMin := listMinInt (rows.map (fun r => r.fire_year))
        yearMax := listMaxInt (rows.map (fun r => r.fire_year))
        totalAcres := (rows.map (fun r => r.fire_size)).sum
        avgFireSize :=
          if rows.length = 0 then none
          else some ((rows.map (fun r => r.fire_size)).sum / rows.length)
        firesByYear := yearCounts (rows.map (fun r => r.fire_year))
        sizeClassCounts := valueCounts (rows.map (fun r => r.fire_size_class))
        topCauses := (valueCounts (rows.map (fun r => r.stat_cause_descr))).take 10
        largestFires :=
          (nlargestBySize 5 rows).map
            (fun r => (r.fire_year, r.fire_name.getD "Unknown", r.fire_size))
        missingData :=
          (columnNames.filter (fun c => 0 < missingCount rows c)).map
            (fun c => (c, missingCount rows c,
              ((missingCount rows c : ℚ) / rows.length) * 100))
        firstRecords := rows.take 3 }

end CaFires

namespace CaFires

/-! ### Binned choropleth builder (create_fire_choropleth, lines 101-177) -/

/-- Index of x among nbins right-closed equal-width intervals spanning
lo to hi (interval i is the half-open-from-the-left cell ending at edge
i+1). -/
def intervalIndex (nbins : Nat) (lo hi x : ℚ) : Nat :=
  (⌈(x - lo) * nbins / (hi - lo)⌉ - 1).toNat

/-- Model of pd.cut(column, bins=nbins, labels=False) for a value x of a
column with minimum mn and maximum mx.  pandas builds nbins equal-width
right-closed intervals over the column range; when the range is
degenerate both endpoints are first pushed out by 0.1 percent, otherwise
the lowest edge alone is pushed down so the minimum lands in bin 0. -/
def cutBin (nbins : Nat) (mn mx x : ℚ) : Nat :=
  if mn = mx then
    intervalIndex nbins (mn - (if mn = 0 then 1 / 1000 else |mn| / 1000))
      (mx + (if mx = 0 then 1 / 1000 else |mx| / 1000)) x
  else if x ≤ mn then 0
  else intervalIndex nbins mn mx x

/-- Midpoint of bin i as pandas reports it (Interval.mid): the average
of the two surrounding edges, with the same edge adjustments as cutBin. -/
def cutMid (nbins : Nat) (mn mx : ℚ) (i : Nat) : ℚ :=
  if mn = mx then
    let lo := mn - (if mn = 0 then 1 / 1000 else |mn| / 1000)
    let hi := mx + (if mx = 0 then 1 / 1000 else |mx| / 1000)
    ((lo + i * (hi - lo) / nbins) + (lo + (i + 1) * (hi - lo) / nbins)) / 2
  else
    let w := (mx - mn) / nbins
    let e0 := if i = 0 then mn - (mx - mn) / 1000 else mn + i * w
    (e0 + (mn + (i + 1) * w)) / 2

/-- A group key of the choropleth aggregation: lat_bin, lon_bin,
lat_center, lon_center (the four groupby columns of lines 128-139). -/
abbrev BinKey := Nat × Nat × ℚ × ℚ

/-- The filter at lines 116-117.  The source guard is the truthiness
test "if year:", so a year of 0 leaves the table unfiltered exactly as
None does. -/
def applyYearFilter (rows : List FireRow) : Option Int → List FireRow
  | none => rows
  | some y => if y = 0 then rows else rows.filter (fun r => r.fire_year == y)

/-- The bin columns and centers of one row, relative to the
latitude/longitude ranges of the whole plotted table (lines 128-135). -/
def choroKey (nbins : Nat) (rows : List FireRow) (r : FireRow) : BinKey :=
  let latMn := listMin (rows.map (fun a => a.latitude))
  let latMx := listMax (rows.map (fun a => a.latitude))
  let lonMn := listMin (rows.map (fun a => a.longitude))
  let lonMx := listMax (rows.map (fun a => a.longitude))
  let i := cutBin nbins latMn latMx r.latitude
  let j := cutBin nbins lonMn lonMx r.longitude
  (i, j, cutMid nbins latMn latMx i, cutMid nbins lonMn lonMx j)

/-- The distinct group keys of a table, in first-occurrence order. -/
def groupKeys {α κ : Type} [DecidableEq κ] (key : α → κ) (l : List α) : List κ :=
  (l.map key).dedup

/-- Model of groupby(key) followed by a per-group aggregate: one output
row per distinct key, carrying the aggregate of the rows of that group.
pandas additionally sorts the group keys, which no claim observes. -/
def groupAgg {α κ : Type} [DecidableEq κ] (key : α → κ) (agg : List α → ℚ)
    (l : List α) : List (κ × ℚ) :=
  (groupKeys key l).map (fun k => (k, agg (l.filter (fun a => key a == k))))

/-- Console messages create_fire_choropleth can print. -/
inductive ChoroMsg where
  | noData
  | invalidMetric
deriving DecidableEq, Repr

/-- create_fire_choropleth (lines 101-177), reduced to its data
content: an error value when the call raises, otherwise the aggregated
(bin, value) table handed to the plotting call or none for an absent
input or an unrecognized metric, together with the console messages
printed.  The binning of lines 128-133 runs before the metric check of
lines 138-152 and pd.cut raises ValueError (Cannot cut empty array)
whenever the year-filtered column it cuts is empty; that uncaught raise
is the error value.  On a non-empty table the three recognized metrics
aggregate group size, summed FIRE_SIZE and mean FIRE_SIZE, and any
other metric prints the invalid-metric message and returns None. -/
def create_fire_choropleth (df : Option (List FireRow)) (metric : String)
    (year : Option Int) :
    Except String (Option (List (BinKey × ℚ))) × List ChoroMsg :=
  match df with
  | none => (Except.ok none, [ChoroMsg.noData])
  | some rows =>
    let plotDf := applyYearFilter rows year
    if plotDf = [] then
      (Except.error "Cannot cut empty array", [])
    else if metric = "fire_count" then
      (Except.ok (some (groupAgg (choroKey 20 plotDf)
        (fun g => (g.length : ℚ)) plotDf)), [])
    else if metric = "total_acres" then
      (Except.ok (some (groupAgg (choroKey 20 plotDf)
        (fun g => (g.map (fun r => r.fire_size)).sum) plotDf)), [])
    else if metric = "avg_fire_size" then
      (Except.ok (some (groupAgg (choroKey 20 plotDf)
        (fun g => (g.map (fun r => r.fire_size)).sum / g.length) plotDf)), [])
    else
      (Except.ok none, [ChoroMsg.invalidMetric])

/-! ### Store model of dataframe mutation (for the no-mutation claim)

The two map builders receive a dataframe object and immediately work on
df.copy(); the subscript filter also builds a fresh object.  To make
that observable we embed them over an explicit store of frames: a frame
is the row list of a dataframe object together with the columns added to
it in place, and each pandas object alive during the call is one store
cell. -/

/-- One dataframe object: its rows plus the columns assigned onto it in
place, each a name with one value per row. -/
structure Frame where
  rows : List FireRow
  extra : List (String × List ℚ)
deriving DecidableEq, Repr

/-- A heap of dataframe objects: allocation counter plus cell contents. -/
structure Store where
  next : Nat
  mem : Nat → Option Frame

/-- Allocate a fresh cell holding frame f; returns its handle. -/
def Store.alloc (s : Store) (f : Frame) : Nat × Store :=
  (s.next, ⟨s.next + 1, fun i => if i = s.next then some f else s.mem i⟩)

/-- Overwrite the cell at handle h. -/
def Store.write (s : Store) (h : Nat) (f : Frame) : Store :=
  ⟨s.next, fun i => if i = h then some f else s.mem i⟩

/-- df.copy(): allocate a fresh frame with the same contents. -/
def dfCopy (s : Store) (h : Nat) : Nat × Store :=
  s.alloc ((s.mem h).getD ⟨[], []⟩)

/-- df[df[FIRE_YEAR] == y]: allocate a fresh frame holding the filtered
rows. -/
def dfFilterYear (s : Store) (h : Nat) (y : Int) : Nat × Store :=
  match s.mem h with
  | none => s.alloc ⟨[], []⟩
  | some f => s.alloc ⟨f.rows.filter (fun r => r.fire_year == y), f.extra⟩

/-- df[name] = column: in-place column assignment on the frame at h. -/
def dfAddColumn (s : Store) (h : Nat) (name : String) (col : List FireRow → List ℚ) :
    Store :=
  match s.mem h with
  | none => s
  | some f => s.write h ⟨f.rows, f.extra ++ [(name, col f.rows)]⟩

/-- The working dataframe object of create_fire_choropleth: df.copy()
(line 115), rebound to a fresh filtered object when a truthy year is
given (lines 116-117). -/
def choroWorking (s : Store) (h : Nat) (year : Option Int) : Nat × Store :=
  let c0 := dfCopy s h
  match year with
  | none => c0
  | some y => if y = 0 then c0 else dfFilterYear c0.2 c0.1 y

/-- The four in-place column assignments of lines 128-135 (and 192-198
with the coarser grid), performed on the working frame at handle c. -/
def addBinColumns (nbins : Nat) (s : Store) (c : Nat) : Store :=
  let rows := ((s.mem c).getD ⟨[], []⟩).rows
  let latMn := listMin (rows.map (fun a => a.latitude))
  let latMx := listMax (rows.map (fun a => a.latitude))
  let lonMn := listMin (rows.map (fun a => a.longitude))
  let lonMx := listMax (rows.map (fun a => a.longitude))
  dfAddColumn (dfAddColumn (dfAddColumn (dfAddColumn s c "lat_bin"
    (fun rs => rs.map (fun r => (cutBin nbins latMn latMx r.latitude : ℚ))))
    c "lon_bin"
    (fun rs => rs.map (fun r => (cutBin nbins lonMn lonMx r.longitude : ℚ))))
    c "lat_center"
    (fun rs => rs.map (fun r => cutMid nbins latMn latMx (cutBin nbins latMn latMx r.latitude))))
    c "lon_center"
    (fun rs => rs.map (fun r => cutMid nbins lonMn lonMx (cutBin nbins lonMn lonMx r.longitude)))

/-- create_fire_choropleth over the store (lines 110-177): copy the
input frame, rebind to a filtered fresh frame when a year is given, then
assign the four bin/center columns in place on that working frame, and
aggregate.  The caller passes the handle of its dataframe object. -/
def create_fire_choropleth_prog (s : Store) (df : Option Nat) (metric : String)
    (year : Option Int) : Option (List (BinKey × ℚ)) × Store :=
  match df with
  | none => (none, s)
  | some h =>
    let c := choroWorking s h year
    let rows := ((c.2.mem c.1).getD ⟨[], []⟩).rows
    let s6 := addBinColumns 20 c.2 c.1
    if metric = "fire_count" then
      (some (groupAgg (choroKey 20 rows) (fun g => (g.length : ℚ)) rows), s6)
    else if metric = "total_acres" then
      (some (groupAgg (choroKey 20 rows)
        (fun g => (g.map (fun r => r.fire_size)).sum) rows), s6)
    else if metric = "avg_fire_size" then
      (some (groupAgg (choroKey 20 rows)
        (fun g => (g.map (fun r => r.fire_size)).sum / g.length) rows), s6)
    else
      (none, s6)

/-- The per-year group key of create_time_series_map: FIRE_YEAR plus the
15x15 bin columns (lines 187-201). -/
def tsKey (rows : List FireRow) (r : FireRow) : Int × BinKey :=
  (r.fire_year, choroKey 15 rows r)

/-- create_time_series_map (lines 179-230) over the store: copy the
input frame, assign the four bin/center columns in place on the copy,
then aggregate count and summed FIRE_SIZE per (year, bin) group. -/
def create_time_series_map_prog (s : Store) (df : Option Nat) :
    Option (List ((Int × BinKey) × ℚ × ℚ)) × Store :=
  match df with
  | none => (none, s)
  | some h =>
    let c := dfCopy s h
    let rows := ((c.2.mem c.1).getD ⟨[], []⟩).rows
    let s6 := addBinColumns 15 c.2 c.1
    (some ((groupKeys (tsKey rows) rows).map (fun k =>
      (k, ((rows.filter (fun r => tsKey rows r == k)).length : ℚ),
        ((rows.filter (fun r => tsKey rows r == k)).map (fun r => r.fire_size)).sum))),
      s6)

end CaFires

/-! ## Auxiliary definitions used by the statements below -/

namespace MapFiresVsPrecip

/-- Decidable form of the row invariant of the clamps at lines 69-70:
both metrics of a generated row are non-negative. -/
def nonnegRow (r : GenRow) : Bool :=
  decide (0 ≤ r.precip_mm) && decide (0 ≤ r.wildfire_index)

/-- Decidable form of the intensity bounds: both intensity fields of a
row lie in the unit interval. -/
def intensityInUnit (r : IntensityRow) : Bool :=
  decide (0 ≤ r.precip_intensity) && decide (r.precip_intensity ≤ 1) &&
    decide (0 ≤ r.wildfire_intensity) && decide (r.wildfire_intensity ≤ 1)

/-- A tiny concrete table with distinct metric values, used to witness
the normalization statement. -/
def exampleGenRows : List GenRow :=
  [{ state := "AL", year := 2000, precip_mm := 0, wildfire_index := 0 },
   { state := "AK", year := 2001, precip_mm := 1, wildfire_index := 2 }]

end MapFiresVsPrecip

namespace CaFires

/-- Decidable form of the WHERE clause on a projected row. -/
def rowInFilter (r : FireRow) : Bool :=
  r.state == "CA" && decide ((2000 : Int) ≤ r.fire_year) && decide (r.fire_year ≤ 2015)

/-- A one-cell store holding an empty dataframe object at handle 0,
used to witness the no-mutation statement. -/
def exampleStore : Store :=
  ⟨1, fun i => if i = 0 then some ⟨[], []⟩ else none⟩

/-- A one-row concrete table, used to witness the choropleth statements
on an input where the binning does not raise. -/
def exampleFireRows : List FireRow :=
  [{ fire_name := some "EXAMPLE", state := "CA", fire_year := 2005,
     latitude := 38, longitude := -120, fire_size := 100,
     fire_size_class := "C", stat_cause_code := 1,
     stat_cause_descr := "Lightning" }]

end CaFires

/-! ## Theorems -/

open MapFiresVsPrecip CaFires

theorem foldl_min_le_init (xs : List ℚ) (a : ℚ) : xs.foldl min a ≤ a := by
  induction xs generalizing a with
  | nil => simp
  | cons x xs ih => exact le_trans (ih (min a x)) (min_le_left a x)

theorem foldl_min_le_mem (xs : List ℚ) (a x : ℚ) (hx : x ∈ xs) :
    xs.foldl min a ≤ x := by
  induction xs generalizing a with
  | nil => cases hx
  | cons y ys ih =>
    rcases List.mem_cons.1 hx with rfl | h
    · exact le_trans (foldl_min_le_init ys (min a x)) (min_le_right a x)
    · exact ih _ h

theorem init_le_foldl_max (xs : List ℚ) (a : ℚ) : a ≤ xs.foldl max a := by
  induction xs generalizing a with
  | nil => simp
  | cons x xs ih => exact le_trans (le_max_left a x) (ih (max a x))

theorem mem_le_foldl_max (xs : List ℚ) (a x : ℚ) (hx : x ∈ xs) :
    x ≤ xs.foldl max a := by
  induction xs generalizing a with
  | nil => cases hx
  | cons y ys ih =>
    rcases List.mem_cons.1 hx with rfl | h
    · exact le_trans (le_max_right a x) (init_le_foldl_max ys (max a x))
    · exact ih _ h

theorem listMin_le_of_mem {l : List ℚ} {x : ℚ} (hx : x ∈ l) : listMin l ≤ x := by
  cases l with
  | nil => cases hx
  | cons y ys =>
    rcases List.mem_cons.1 hx with rfl | h
    · exact foldl_min_le_init ys x
    · exact foldl_min_le_mem ys y x h

theorem le_listMax_of_mem {l : List ℚ} {x : ℚ} (hx : x ∈ l) : x ≤ listMax l := by
  cases l with
  | nil => cases hx
  | cons y ys =>
    rcases List.mem_cons.1 hx with rfl | h
    · exact init_le_foldl_max ys x
    · exact mem_le_foldl_max ys y x h

/-- C1: the synthetic climate data generator is deterministic: equal
seeds give exactly the same table of (state, year, precip_mm,
wildfire_index) rows, row for row and value for value. -/
theorem generateTable_deterministic (s t : Nat) (h : s = t) :
    generateTable s = generateTable t :=
  congrArg generateTable h

theorem generateTable_deterministic_witness :
    (42 : Nat) = 42 ∧ generateTable 42 = generateTable 42 :=
  ⟨rfl, generateTable_deterministic 42 42 rfl⟩

theorem mkRow_nonnegRow (bp bw : ℚ) (st : String) (year : Int) (g : Gen) :
    nonnegRow (mkRow bp bw st year g).1 = true := by
  unfold nonnegRow
  rw [Bool.and_eq_true, decide_eq_true_eq, decide_eq_true_eq]
  exact ⟨le_max_left 0 _, le_max_left 0 _⟩

theorem rowsForYear_nonneg (bases : List (String × ℚ × ℚ)) (year : Int) :
    ∀ (sts : List String) (g : Gen),
      ((rowsForYear bases year sts g).1).all nonnegRow = true := by
  intro sts
  induction sts with
  | nil => intro g; rfl
  | cons st rest ih =>
    intro g
    show ((mkRow (baseFor bases st).1 (baseFor bases st).2 st year g).1 ::
        (rowsForYear bases year rest
          (mkRow (baseFor bases st).1 (baseFor bases st).2 st year g).2).1).all
        nonnegRow = true
    rw [List.all_cons, Bool.and_eq_true]
    exact ⟨mkRow_nonnegRow _ _ _ _ _, ih _⟩

theorem rowsForYears_nonneg (bases : List (String × ℚ × ℚ)) :
    ∀ (ys : List Int) (g : Gen),
      ((rowsForYears bases ys g).1).all nonnegRow = true := by
  intro ys
  induction ys with
  | nil => intro g; rfl
  | cons y rest ih =>
    intro g
    show ((rowsForYear bases y states g).1 ++
        (rowsForYears bases rest (rowsForYear bases y states g).2).1).all
        nonnegRow = true
    rw [List.all_append, Bool.and_eq_true]
    exact ⟨rowsForYear_nonneg _ _ _ _, ih _⟩

/-- C10: every row produced by the synthetic generator has non-negative
metric values (precip_mm and wildfire_index are clamped with max 0
before insertion), for every raw-draw stream and in particular for every
seed. -/
theorem generator_rows_nonneg :
    (∀ g : Gen, (generateRows g).all nonnegRow = true) ∧
    (∀ seed : Nat, (generateTable seed).all nonnegRow = true) :=
  ⟨fun _ => rowsForYears_nonneg _ _ _, fun _ => rowsForYears_nonneg _ _ _⟩

theorem mem_addIntensities {rows : List GenRow} {r : IntensityRow}
    (hr : r ∈ addIntensities rows) :
    ∃ r0 ∈ rows, r =
      { toGenRow := r0,
        precip_intensity :=
          (r0.precip_mm - precipMin rows) / (precipMax rows - precipMin rows),
        wildfire_intensity :=
          (r0.wildfire_index - wildMin rows) / (wildMax rows - wildMin rows) } := by
  unfold addIntensities at hr
  obtain ⟨r0, h0, heq⟩ := List.mem_map.1 hr
  exact ⟨r0, h0, heq.symm⟩

/-- C2: the intensity fields are normalized by the global minimum and
maximum of each metric over the whole table; whenever each metric is
non-degenerate (its minimum is strictly below its maximum, as in any
actually generated table), every intensity lies in the unit interval,
rows holding the minimum raw value of a metric get intensity 0 and rows
holding the maximum get intensity 1, per metric independently. -/
theorem addIntensities_unit_interval (rows : List GenRow)
    (hp : precipMin rows < precipMax rows)
    (hw : wildMin rows < wildMax rows) :
    ((addIntensities rows).all intensityInUnit = true) ∧
    (∀ r ∈ addIntensities rows,
      (r.precip_mm = precipMin rows → r.precip_intensity = 0) ∧
      (r.precip_mm = precipMax rows → r.precip_intensity = 1) ∧
      (r.wildfire_index = wildMin rows → r.wildfire_intensity = 0) ∧
      (r.wildfire_index = wildMax rows → r.wildfire_intensity = 1)) := by
  have hpd : (0 : ℚ) < precipMax rows - precipMin rows := sub_pos.2 hp
  have hwd : (0 : ℚ) < wildMax rows - wildMin rows := sub_pos.2 hw
  constructor
  · rw [List.all_eq_true]
    intro r hr
    obtain ⟨r0, h0, rfl⟩ := mem_addIntensities hr
    have hp1 : precipMin rows ≤ r0.precip_mm :=
      listMin_le_of_mem (List.mem_map_of_mem (fun a => a.precip_mm) h0)
    have hp2 : r0.precip_mm ≤ precipMax rows :=
      le_listMax_of_mem (List.mem_map_of_mem (fun a => a.precip_mm) h0)
    have hw1 : wildMin rows ≤ r0.wildfire_index :=
      listMin_le_of_mem (List.mem_map_of_mem (fun a => a.wildfire_index) h0)
    have hw2 : r0.wildfire_index ≤ wildMax rows :=
      le_listMax_of_mem (List.mem_map_of_mem (fun a => a.wildfire_index) h0)
    simp only [intensityInUnit, Bool.and_eq_true, decide_eq_true_eq]
    refine ⟨⟨⟨?_, ?_⟩, ?_⟩, ?_⟩
    · exact div_nonneg (sub_nonneg.2 hp1) (le_of_lt hpd)
    · exact (div_le_one hpd).2 (sub_le_sub_right hp2 _)
    · exact div_nonneg (sub_nonneg.2 hw1) (le_of_lt hwd)
    · exact (div_le_one hwd).2 (sub_le_sub_right hw2 _)
  · intro r hr
    obtain ⟨r0, h0, rfl⟩ := mem_addIntensities hr
    refine ⟨fun h => ?_, fun h => ?_, fun h => ?_, fun h => ?_⟩
    · show (r0.precip_mm - precipMin rows) / (precipMax rows - precipMin rows) = 0
      rw [h, sub_self, zero_div]
    · show (r0.precip_mm - precipMin rows) / (precipMax rows - precipMin rows) = 1
      rw [h, div_self (ne_of_gt hpd)]
    · show (r0.wildfire_index - wildMin rows) / (wildMax rows - wildMin rows) = 0
      rw [h, sub_self, zero_div]
    · show (r0.wildfire_index - wildMin rows) / (wildMax rows - wildMin rows) = 1
      rw [h, div_self (ne_of_gt hwd)]

theorem addIntensities_unit_interval_witness :
    precipMin exampleGenRows < precipMax exampleGenRows ∧
    wildMin exampleGenRows < wildMax exampleGenRows ∧
    (((addIntensities exampleGenRows).all intensityInUnit = true) ∧
      (∀ r ∈ addIntensities exampleGenRows,
        (r.precip_mm = precipMin exampleGenRows → r.precip_intensity = 0) ∧
        (r.precip_mm = precipMax exampleGenRows → r.precip_intensity = 1) ∧
        (r.wildfire_index = wildMin exampleGenRows → r.wildfire_intensity = 0) ∧
        (r.wildfire_index = wildMax exampleGenRows → r.wildfire_intensity = 1))) :=
  ⟨by decide, by decide,
    addIntensities_unit_interval exampleGenRows (by decide) (by decide)⟩

/-- C4 counterexample: it is not the case that every execution that
opens the connection also closes it: when the query raises (for
instance, a missing Fires table), the except branch returns None without
reaching the conn.close() call, leaving the opened connection unclosed. -/
theorem conn_close_claim_counterexample :
    ¬ (∀ (c : Except String Unit) (q : Except String (List RawFireRow)),
        (load_california_wildfires c q).connOpened = true →
        (load_california_wildfires c q).connClosed = true) := by
  intro h
  exact Bool.false_ne_true
    (h (Except.ok ()) (Except.error "no such table: Fires") rfl)

/-- C4 (amended): the connection is closed on the success path only.
When connect succeeds and the query succeeds, the connection is opened
and closed; when connect succeeds but the query raises, the connection
is opened and left unclosed; when connect itself raises, no connection
is ever opened. -/
theorem conn_close_success_only (e : String) (q : Except String (List RawFireRow))
    (db : List RawFireRow) :
    ((load_california_wildfires (Except.ok ()) (Except.ok db)).connOpened = true ∧
      (load_california_wildfires (Except.ok ()) (Except.ok db)).connClosed = true) ∧
    ((load_california_wildfires (Except.ok ()) (Except.error e)).connOpened = true ∧
      (load_california_wildfires (Except.ok ()) (Except.error e)).connClosed = false) ∧
    ((load_california_wildfires (Except.error e) q).connOpened = false ∧
      (load_california_wildfires (Except.error e) q).connClosed = false) :=
  ⟨⟨rfl, rfl⟩, ⟨rfl, rfl⟩, ⟨rfl, rfl⟩⟩

/-- C5: whenever opening the database or executing the query fails,
load_california_wildfires catches the error, prints its diagnostic and
returns the absence value, and each of the two steps runs at most once
(no retries). -/
theorem load_failure_returns_none (c : Except String Unit)
    (q : Except String (List RawFireRow))
    (hfail : isErr c = true ∨ isErr q = true) :
    (load_california_wildfires c q).result = none ∧
    (load_california_wildfires c q).printedError = true ∧
    (load_california_wildfires c q).connectCalls ≤ 1 ∧
    (load_california_wildfires c q).queryCalls ≤ 1 := by
  cases c with
  | error e => exact ⟨rfl, rfl, le_refl 1, Nat.zero_le 1⟩
  | ok u =>
    cases q with
    | error e => exact ⟨rfl, rfl, le_refl 1, le_refl 1⟩
    | ok db => rcases hfail with h | h <;> simp [isErr] at h

theorem load_failure_returns_none_witness :
    (isErr (Except.ok () : Except String Unit) = true ∨
      isErr (Except.error "unable to open database file" :
        Except String (List RawFireRow)) = true) ∧
    ((load_california_wildfires (Except.ok ())
        (Except.error "unable to open database file")).result = none ∧
      (load_california_wildfires (Except.ok ())
        (Except.error "unable to open database file")).printedError = true ∧
      (load_california_wildfires (Except.ok ())
        (Except.error "unable to open database file")).connectCalls ≤ 1 ∧
      (load_california_wildfires (Except.ok ())
        (Except.error "unable to open database file")).queryCalls ≤ 1) :=
  ⟨Or.inr rfl, load_failure_returns_none _ _ (Or.inr rfl)⟩

theorem fireOrder_trans (a b c : FireRow) (h1 : fireOrder a b = true)
    (h2 : fireOrder b c = true) : fireOrder a c = true := by
  simp only [fireOrder, Bool.or_eq_true, Bool.and_eq_true, decide_eq_true_eq,
    beq_iff_eq] at h1 h2 ⊢
  rcases h1 with h1 | ⟨h1e, h1s⟩ <;> rcases h2 with h2 | ⟨h2e, h2s⟩
  · exact Or.inl (lt_trans h1 h2)
  · exact Or.inl (h2e ▸ h1)
  · exact Or.inl (h1e ▸ h2)
  · exact Or.inr ⟨h1e.trans h2e, le_trans h2s h1s⟩

theorem fireOrder_total (a b : FireRow) : (fireOrder a b || fireOrder b a) = true := by
  simp only [fireOrder, Bool.or_eq_true, Bool.and_eq_true, decide_eq_true_eq,
    beq_iff_eq]
  rcases lt_trichotomy a.fire_year b.fire_year with h | h | h
  · exact Or.inl (Or.inl h)
  · rcases le_total b.fire_size a.fire_size with hs | hs
    · exact Or.inl (Or.inr ⟨h, hs⟩)
    · exact Or.inr (Or.inr ⟨h.symm, hs⟩)
  · exact Or.inr (Or.inl h)

/-- C7: on the success path the loader returns exactly the rows of the
Fires table with STATE equal to CA and FIRE_YEAR between 2000 and 2015
inclusive, projected to the fixed nine-column set (a permutation of the
filter of the table), ordered by FIRE_YEAR ascending with FIRE_SIZE
descending within each year, and every returned row satisfies the
filter. -/
theorem load_query_contract (db : List RawFireRow) :
    (load_california_wildfires (Except.ok ()) (Except.ok db)).result =
      some (queryFires db) ∧
    (queryFires db).Perm ((db.filter firesWhere).map selectColumns) ∧
    (queryFires db).Pairwise (fun a b => fireOrder a b = true) ∧
    (queryFires db).all rowInFilter = true := by
  refine ⟨rfl, List.mergeSort_perm _ _, ?_, ?_⟩
  · exact List.sorted_mergeSort
      (fun a b c => fireOrder_trans a b c) (fun a b => fireOrder_total a b) _
  · rw [List.all_eq_true]
    intro r hr
    have hmem : r ∈ (db.filter firesWhere).map selectColumns :=
      (List.mergeSort_perm ((db.filter firesWhere).map selectColumns)
        fireOrder).mem_iff.1 hr
    obtain ⟨raw, hraw, rfl⟩ := List.mem_map.1 hmem
    have hf : firesWhere raw = true := List.of_mem_filter hraw
    exact hf

theorem load_query_contract_witness :
    (load_california_wildfires (Except.ok ())
        (Except.ok ([] : List RawFireRow))).result = some (queryFires []) ∧
    (queryFires ([] : List RawFireRow)).Perm
      ((([] : List RawFireRow).filter firesWhere).map selectColumns) ∧
    (queryFires ([] : List RawFireRow)).Pairwise (fun a b => fireOrder a b = true) ∧
    (queryFires ([] : List RawFireRow)).all rowInFilter = true :=
  load_query_contract []

theorem groupAgg_count_sum {α κ : Type} [DecidableEq κ] (key : α → κ) (l : List α) :
    ((groupAgg key (fun g => (g.length : ℚ)) l).map Prod.snd).sum = (l.length : ℚ) := by
  unfold groupAgg groupKeys
  rw [List.map_map]
  have h1 : (Prod.snd ∘ fun k => (k, ((l.filter (fun a => key a == k)).length : ℚ)))
      = fun k => (((l.map key).count k : ℕ) : ℚ) := by
    funext k
    simp only [Function.comp_apply]
    rw [List.count, List.countP_map, ← List.countP_eq_length_filter]
    rfl
  rw [h1]
  have h2 : ((l.map key).dedup.map fun k => (((l.map key).count k : ℕ) : ℚ))
      = ((l.map key).dedup.map fun k => (l.map key).count k).map
          (fun n : ℕ => (n : ℚ)) := by
    rw [List.map_map]
    rfl
  rw [h2, ← Nat.cast_list_sum, List.sum_map_count_dedup_eq_length, List.length_map]

/-- C3 counterexample: it is not the case that every input table and
every optional year filter yield a bin table for the fire_count metric:
on an empty (year-filtered) table the call raises at pd.cut (line 128)
before any aggregation, so no bin table is produced at all. -/
theorem fire_count_bins_counterexample :
    ¬ (∀ (rows : List FireRow) (year : Option Int), ∃ bins,
        (create_fire_choropleth (some rows) "fire_count" year).1 =
          Except.ok (some bins) ∧
        (bins.map Prod.snd).sum = ((applyYearFilter rows year).length : ℚ)) := by
  intro h
  obtain ⟨bins, hb, hsum⟩ := h [] none
  rw [show (create_fire_choropleth (some ([] : List FireRow)) "fire_count" none).1 =
      Except.error "Cannot cut empty array" from rfl] at hb
  exact Except.noConfusion hb

/-- C3 (amended): whenever the year-filtered input table is non-empty
(so the binning at lines 128-133 does not raise), the choropleth builder
invoked with the fire_count metric returns a bin table whose per-bin
counts sum to the number of rows of the year-filtered input table. -/
theorem fire_count_bins_sum_to_rows (rows : List FireRow) (year : Option Int)
    (hne : applyYearFilter rows year ≠ []) :
    ∃ bins, (create_fire_choropleth (some rows) "fire_count" year).1 =
        Except.ok (some bins) ∧
      (bins.map Prod.snd).sum = ((applyYearFilter rows year).length : ℚ) := by
  refine ⟨groupAgg (choroKey 20 (applyYearFilter rows year))
      (fun g => (g.length : ℚ)) (applyYearFilter rows year), ?_,
    groupAgg_count_sum _ _⟩
  simp [create_fire_choropleth, hne]

theorem fire_count_bins_sum_to_rows_witness :
    applyYearFilter exampleFireRows none ≠ [] ∧
    (∃ bins, (create_fire_choropleth (some exampleFireRows) "fire_count" none).1 =
        Except.ok (some bins) ∧
      (bins.map Prod.snd).sum = ((applyYearFilter exampleFireRows none).length : ℚ)) :=
  ⟨by decide, fire_count_bins_sum_to_rows exampleFireRows none (by decide)⟩

/-- C6 counterexample: it is not the case that every non-absent input
table with an unrecognized metric prints the invalid-metric message and
returns the absence value: on an empty table the call raises at pd.cut
(line 128) before the metric check is ever reached. -/
theorem invalid_metric_counterexample :
    ¬ (∀ (rows : List FireRow) (metric : String) (year : Option Int),
        metric ≠ "fire_count" → metric ≠ "total_acres" → metric ≠ "avg_fire_size" →
        (create_fire_choropleth (some rows) metric year).1 = Except.ok none ∧
        (create_fire_choropleth (some rows) metric year).2 =
          [ChoroMsg.invalidMetric]) := by
  intro h
  have hb := (h [] "fire_hazard" none (by decide) (by decide) (by decide)).1
  rw [show (create_fire_choropleth (some ([] : List FireRow)) "fire_hazard" none).1 =
      Except.error "Cannot cut empty array" from rfl] at hb
  exact Except.noConfusion hb

/-- C6 (amended): for every non-absent input table whose year-filtered
form is non-empty (so the binning before the metric check does not
raise) and every metric other than fire_count, total_acres or
avg_fire_size, create_fire_choropleth prints the invalid-metric message
and returns the absence value rather than raising. -/
theorem invalid_metric_returns_none (rows : List FireRow) (metric : String)
    (year : Option Int) (hne : applyYearFilter rows year ≠ [])
    (h1 : metric ≠ "fire_count") (h2 : metric ≠ "total_acres")
    (h3 : metric ≠ "avg_fire_size") :
    (create_fire_choropleth (some rows) metric year).1 = Except.ok none ∧
    (create_fire_choropleth (some rows) metric year).2 = [ChoroMsg.invalidMetric] := by
  simp [create_fire_choropleth, hne, h1, h2, h3]

theorem invalid_metric_returns_none_witness :
    (applyYearFilter exampleFireRows none ≠ [] ∧
      ("fire_hazard" : String) ≠ "fire_count" ∧
      ("fire_hazard" : String) ≠ "total_acres" ∧
      ("fire_hazard" : String) ≠ "avg_fire_size") ∧
    ((create_fire_choropleth (some exampleFireRows) "fire_hazard" none).1 =
        Except.ok none ∧
      (create_fire_choropleth (some exampleFireRows) "fire_hazard" none).2 =
        [ChoroMsg.invalidMetric]) :=
  ⟨⟨by decide, by decide, by decide, by decide⟩,
    invalid_metric_returns_none exampleFireRows "fire_hazard" none (by decide)
      (by decide) (by decide) (by decide)⟩

/-- C8: exploring an empty table completes (the function is total and
returns a report rather than raising): the report shows a total count of
zero, absent year range and mean, zero total acres, empty per-year and
per-class listings, empty top-cause and largest-fire lists, no
missing-data lines and an empty preview. -/
theorem explore_empty_table :
    ∃ rep, explore_ca_data (some ([] : List FireRow)) = some rep ∧
      rep.totalFires = 0 ∧ rep.yearMin = none ∧ rep.yearMax = none ∧
      rep.totalAcres = 0 ∧ rep.avgFireSize = none ∧
      rep.firesByYear = [] ∧ rep.sizeClassCounts = [] ∧
      rep.topCauses = [] ∧ rep.largestFires = [] ∧
      rep.missingData = [] ∧ rep.firstRecords = [] := by
  refine ⟨_, rfl, ?_, ?_, ?_, ?_, ?_, ?_, ?_, ?_, ?_, ?_, ?_⟩ <;>
    simp [explore_ca_data, yearCounts, valueCounts, nlargestBySize, listMinInt,
      listMaxInt, missingCount, columnNames]

theorem alloc_mem_lt (s : Store) (f : Frame) (i : Nat) (hi : i < s.next) :
    ((s.alloc f).2).mem i = s.mem i := by
  show (if i = s.next then some f else s.mem i) = s.mem i
  exact if_neg (Nat.ne_of_lt hi)

theorem write_mem_ne (s : Store) (c : Nat) (f : Frame) (i : Nat) (hne : i ≠ c) :
    (s.write c f).mem i = s.mem i := by
  show (if i = c then some f else s.mem i) = s.mem i
  exact if_neg hne

theorem dfAddColumn_mem_ne (s : Store) (c : Nat) (name : String)
    (col : List FireRow → List ℚ) (i : Nat) (hne : i ≠ c) :
    (dfAddColumn s c name col).mem i = s.mem i := by
  unfold dfAddColumn
  cases hmc : s.mem c with
  | none => rfl
  | some f => exact write_mem_ne s c _ i hne

theorem dfCopy_fst (s : Store) (h : Nat) : (dfCopy s h).1 = s.next := rfl

theorem dfCopy_next (s : Store) (h : Nat) : (dfCopy s h).2.next = s.next + 1 := rfl

theorem dfCopy_mem_lt (s : Store) (h i : Nat) (hi : i < s.next) :
    (dfCopy s h).2.mem i = s.mem i :=
  alloc_mem_lt s _ i hi

theorem dfFilterYear_fst (s : Store) (h : Nat) (y : Int) :
    (dfFilterYear s h y).1 = s.next := by
  unfold dfFilterYear
  cases hmc : s.mem h with
  | none => rfl
  | some f => rfl

theorem dfFilterYear_next (s : Store) (h : Nat) (y : Int) :
    (dfFilterYear s h y).2.next = s.next + 1 := by
  unfold dfFilterYear
  cases hmc : s.mem h with
  | none => rfl
  | some f => rfl

theorem dfFilterYear_mem_lt (s : Store) (h : Nat) (y : Int) (i : Nat)
    (hi : i < s.next) : (dfFilterYear s h y).2.mem i = s.mem i := by
  unfold dfFilterYear
  cases hmc : s.mem h with
  | none => exact alloc_mem_lt s _ i hi
  | some f => exact alloc_mem_lt s _ i hi

theorem addFour_mem_ne {s : Store} {c : Nat} {i : Nat} (hne : i ≠ c)
    (n1 n2 n3 n4 : String) (f1 f2 f3 f4 : List FireRow → List ℚ) :
    (dfAddColumn (dfAddColumn (dfAddColumn (dfAddColumn s c n1 f1) c n2 f2)
      c n3 f3) c n4 f4).mem i = s.mem i := by
  rw [dfAddColumn_mem_ne _ _ _ _ _ hne, dfAddColumn_mem_ne _ _ _ _ _ hne,
    dfAddColumn_mem_ne _ _ _ _ _ hne, dfAddColumn_mem_ne _ _ _ _ _ hne]

theorem choroWorking_mem_lt (s : Store) (h : Nat) (year : Option Int) (i : Nat)
    (hi : i < s.next) : (choroWorking s h year).2.mem i = s.mem i := by
  cases year with
  | none => exact dfCopy_mem_lt s h i hi
  | some y =>
    unfold choroWorking
    dsimp only
    split_ifs
    · exact dfCopy_mem_lt s h i hi
    · exact (dfFilterYear_mem_lt _ _ _ i (by rw [dfCopy_next]; omega)).trans
        (dfCopy_mem_lt s h i hi)

theorem ne_choroWorking_fst (s : Store) (h : Nat) (year : Option Int) (i : Nat)
    (hi : i < s.next) : i ≠ (choroWorking s h year).1 := by
  cases year with
  | none =>
    show i ≠ (dfCopy s h).1
    rw [dfCopy_fst]
    omega
  | some y =>
    unfold choroWorking
    dsimp only
    split_ifs
    · show i ≠ (dfCopy s h).1
      rw [dfCopy_fst]
      omega
    · rw [dfFilterYear_fst, dfCopy_next]
      omega

theorem addBinColumns_mem_ne (nbins : Nat) (s : Store) (c : Nat) (i : Nat)
    (hne : i ≠ c) : (addBinColumns nbins s c).mem i = s.mem i := by
  unfold addBinColumns
  exact addFour_mem_ne hne _ _ _ _ _ _ _ _

theorem choropleth_prog_mem (s : Store) (h : Nat) (metric : String)
    (year : Option Int) (i : Nat) (hi : i < s.next) :
    (create_fire_choropleth_prog s (some h) metric year).2.mem i = s.mem i := by
  unfold create_fire_choropleth_prog
  dsimp only
  split_ifs <;>
    exact (addBinColumns_mem_ne 20 _ _ i (ne_choroWorking_fst s h year i hi)).trans
      (choroWorking_mem_lt s h year i hi)

theorem timeseries_prog_mem (s : Store) (h : Nat) (i : Nat) (hi : i < s.next) :
    (create_time_series_map_prog s (some h)).2.mem i = s.mem i := by
  unfold create_time_series_map_prog
  dsimp only
  exact (addBinColumns_mem_ne 15 _ _ i
      (show i ≠ (dfCopy s h).1 by rw [dfCopy_fst]; omega)).trans
    (dfCopy_mem_lt s h i hi)

/-- C9: neither map builder mutates its input: both work on a copy of
the dataframe object handed in (the year filter also rebinding to a
fresh object), so after either call the frame of the caller still holds
exactly the rows and columns it held before. -/
theorem builders_do_not_mutate_input (s : Store) (h : Nat) (f : Frame)
    (metric : String) (year : Option Int) (hlt : h < s.next)
    (hmem : s.mem h = some f) :
    ((create_fire_choropleth_prog s (some h) metric year).2).mem h = some f ∧
    ((create_time_series_map_prog s (some h)).2).mem h = some f :=
  ⟨(choropleth_prog_mem s h metric year h hlt).trans hmem,
    (timeseries_prog_mem s h h hlt).trans hmem⟩

theorem builders_do_not_mutate_input_witness :
    ((0 : Nat) < exampleStore.next ∧
      exampleStore.mem 0 = some (⟨[], []⟩ : Frame)) ∧
    (((create_fire_choropleth_prog exampleStore (some 0) "fire_count" none).2).mem 0 =
        some (⟨[], []⟩ : Frame) ∧
      ((create_time_series_map_prog exampleStore (some 0)).2).mem 0 =
        some (⟨[], []⟩ : Frame)) :=
  ⟨⟨by decide, rfl⟩,
    builders_do_not_mutate_input exampleStore 0 ⟨[], []⟩ "fire_count" none
      (by decide) rfl⟩
